import Mathlib

/-!
Shallow embedding of src/app.py, a small Flask service with two routes:
POST /api/execute (handler execute, delegating to execute_mental_health)
and GET /check (handler check). The external generative-model collaborator
is modelled as an optional function from the query string to an outcome;
None models the global variable model being None after startup.
-/

namespace MentalHealth

/-- JSON values, as produced by request.get_json and consumed by jsonify.
Objects are association lists with the keys already deduplicated, matching
a parsed Python dict. -/
inductive Json where
  | null
  | bool (b : Bool)
  | num (n : Int)
  | str (s : String)
  | arr (elems : List Json)
  | obj (fields : List (String × Json))

/-- Python truthiness of a parsed JSON value: None, False, 0, the empty
string, the empty list and the empty dict are falsy; everything else is
truthy. Used to embed the tests at lines 97 and 102 of app.py. -/
def Json.truthy : Json → Bool
  | .null => false
  | .bool b => b
  | .num n => n != 0
  | .str s => !(s == "")
  | .arr elems => !elems.isEmpty
  | .obj fields => !fields.isEmpty

/-- Whether the value is a Python str, embedding isinstance(query, str). -/
def Json.isStr : Json → Bool
  | .str _ => true
  | _ => false

/-- The underlying string of a str value; only read under isStr. -/
def Json.asStr : Json → String
  | .str s => s
  | _ => ""

/-- Characters removed by str.strip with no argument: whitespace. -/
def stripChars (cs : List Char) : List Char :=
  ((cs.dropWhile Char.isWhitespace).reverse.dropWhile Char.isWhitespace).reverse

/-- Embedding of str.strip with no argument: remove leading and trailing
whitespace. -/
def pyStrip (s : String) : String := ⟨stripChars s.data⟩

/-- Embedding of dict.get(key): the value at the key, or None when the key
is absent. -/
def dictGet (fields : List (String × Json)) (key : String) : Json :=
  match fields.find? (fun f => f.fst == key) with
  | some f => f.snd
  | none => Json.null

/-- Hardcoded model name, line 13 of app.py. -/
def MODEL_TO_USE : String := "gemini-2.5-flash"

/-- Outcome of one call to model.generate_content on a given query: it
either returns a response whose text field is t, raises an APIError with
the given description, or raises some other exception with the given
description. -/
inductive GenOutcome where
  | text (t : String)
  | raiseApi (msg : String)
  | raiseOther (msg : String)

/-- The collaborator handle: the global variable model of app.py. It is
None when the credential was absent or configuration failed (lines 15-31),
otherwise a handle whose generate_content behaviour is a function from the
query to an outcome. -/
def ModelHandle := Option (String → GenOutcome)

/-- Outcome of execute_mental_health (lines 42-65): initRaise is the raise
at lines 47-48 when the handle is absent; ok t is a normal return of the
response text; excApi and excOther are exceptions propagating out of
model.generate_content. -/
inductive MHOutcome where
  | initRaise
  | ok (t : String)
  | excApi (msg : String)
  | excOther (msg : String)

/-- Whether the outcome is the raise at lines 47-48 of app.py. -/
def MHOutcome.isInitRaise : MHOutcome → Bool
  | .initRaise => true
  | _ => false

/-- Embedding of execute_mental_health (lines 42-65): raise when the
handle is absent, otherwise call generate_content with the query and
propagate its result or exception. -/
def execute_mental_health (model : ModelHandle) (query : String) : MHOutcome :=
  match model with
  | none => .initRaise
  | some gen =>
    match gen query with
    | .text t => .ok t
    | .raiseApi msg => .excApi msg
    | .raiseOther msg => .excOther msg

/-- An HTTP response produced by a handler via jsonify: a status code and
a JSON body. -/
structure Response where
  status : Nat
  body : Json

/-- Result of running a route handler: either a response, or an exception
escaping the handler to the framework (in execute this happens only when
data.get is attempted on a truthy non-dict value, raising AttributeError
outside the try block). -/
inductive HttpResult where
  | resp (r : Response)
  | unhandled

/-- Status code of a handler run, when the handler returned a response. -/
def HttpResult.statusOf : HttpResult → Option Nat
  | .resp r => some r.status
  | .unhandled => none

/-- A run of the execute handler: its HTTP-level result together with the
list of queries passed to model.generate_content during the run. -/
structure ExecResult where
  http : HttpResult
  calls : List String

/-- Body jsonify produces for an error message. -/
def errBody (msg : String) : Json := .obj [("error", .str msg)]

/-- Embedding of the execute handler (lines 90-119 of app.py), faithful to
the order of its checks: absent handle gives 503; a body that did not
parse, or parsed to a falsy value, gives 400; a missing, non-string or
whitespace-only query field gives 400; otherwise execute_mental_health is
called and its outcome is mapped to 200, 503 (APIError) or 500 (any other
exception). The body argument is the value of request.get_json with
silent set, so none means the payload was absent or unparseable. -/
def execute (model : ModelHandle) (body : Option Json) : ExecResult :=
  match model with
  | none =>
    ⟨.resp ⟨503, errBody "AI service not initialized. Check API key configuration."⟩, []⟩
  | some gen =>
    match body with
    | none => ⟨.resp ⟨400, errBody "Invalid or missing JSON payload."⟩, []⟩
    | some data =>
      if !data.truthy then
        ⟨.resp ⟨400, errBody "Invalid or missing JSON payload."⟩, []⟩
      else
        match data with
        | .obj fields =>
          let query := dictGet fields "query"
          if !query.truthy || !query.isStr || pyStrip query.asStr == "" then
            ⟨.resp ⟨400, errBody "Missing or empty \"query\" field in the request."⟩, []⟩
          else
            match execute_mental_health (some gen) query.asStr with
            | .ok t =>
              ⟨.resp ⟨200, .obj [("success", .bool true), ("result", .str t)]⟩, [query.asStr]⟩
            | .excApi msg =>
              ⟨.resp ⟨503, errBody ("AI Service Unavailable or request error: " ++ msg)⟩,
                [query.asStr]⟩
            | .excOther _ =>
              ⟨.resp ⟨500, errBody "An unexpected internal server error occurred."⟩,
                [query.asStr]⟩
            | .initRaise =>
              ⟨.resp ⟨500, errBody "An unexpected internal server error occurred."⟩, []⟩
        | _ => ⟨.unhandled, []⟩

/-- Embedding of the check handler (lines 69-86 of app.py). -/
def check (model : ModelHandle) : Response :=
  match model with
  | none =>
    ⟨503, .obj [("status", .str "error"),
                ("message", .str "backend is running, but AI model failed to initialize."),
                ("model", .str MODEL_TO_USE)]⟩
  | some _ =>
    ⟨200, .obj [("status", .str "ok"),
                ("message", .str "backend is running"),
                ("model", .str MODEL_TO_USE)]⟩

/-- An object whose query key holds a string value is a nonempty dict. -/
theorem dictGet_str_ne_nil {fields : List (String × Json)} {q : String}
    (h : dictGet fields "query" = Json.str q) : fields.isEmpty = false := by
  cases fields with
  | nil => simp [dictGet] at h
  | cons f fs => rfl

/-- Behaviour of execute on a request that passes all validation: the
outcome of the single generate_content call decides the response. -/
theorem execute_valid (gen : String → GenOutcome) (fields : List (String × Json)) (q : String)
    (hq : dictGet fields "query" = Json.str q) (ht : pyStrip q ≠ "") :
    execute (some gen) (some (Json.obj fields)) =
      match gen q with
      | .text t =>
        ⟨.resp ⟨200, Json.obj [("success", Json.bool true), ("result", Json.str t)]⟩, [q]⟩
      | .raiseApi msg =>
        ⟨.resp ⟨503, errBody ("AI Service Unavailable or request error: " ++ msg)⟩, [q]⟩
      | .raiseOther _ =>
        ⟨.resp ⟨500, errBody "An unexpected internal server error occurred."⟩, [q]⟩ := by
  have hne : fields.isEmpty = false := dictGet_str_ne_nil hq
  have hq0 : q ≠ "" := by
    intro h
    exact ht (by rw [h]; decide)
  cases hg : gen q with
  | text t =>
    simp [execute, execute_mental_health, Json.truthy, Json.isStr, Json.asStr,
      hq, hne, hq0, ht, hg]
  | raiseApi msg =>
    simp [execute, execute_mental_health, Json.truthy, Json.isStr, Json.asStr,
      hq, hne, hq0, ht, hg]
  | raiseOther msg =>
    simp [execute, execute_mental_health, Json.truthy, Json.isStr, Json.asStr,
      hq, hne, hq0, ht, hg]

/-- C1 counterexample: with the handle present, the request body that is
the empty JSON object yields status 400 with the payload-validation
message, which differs from the query-field validation message, because
an empty dict is falsy in Python and therefore taken by the check at
line 97 of app.py before the query field is ever read. -/
theorem execute_empty_object_counterexample :
    execute (some (fun _ => GenOutcome.text "ok")) (some (Json.obj [])) =
      ⟨.resp ⟨400, errBody "Invalid or missing JSON payload."⟩, []⟩ ∧
    "Invalid or missing JSON payload." ≠ "Missing or empty \"query\" field in the request." :=
  ⟨rfl, by decide⟩

/-- C1 amended: with the handle present, a request whose JSON body is the
empty object yields status 400 with the payload-validation message
Invalid or missing JSON payload. -/
theorem execute_empty_object_payload_message (gen : String → GenOutcome) :
    execute (some gen) (some (Json.obj [])) =
      ⟨.resp ⟨400, errBody "Invalid or missing JSON payload."⟩, []⟩ := rfl

/-- C2: with the handle present, every body that parses to a falsy value,
or to an object whose query key is absent or holds a string that is empty
after stripping, gets status 400, and generate_content is never called. -/
theorem execute_invalid_query_400_no_call (gen : String → GenOutcome) (data : Json)
    (h : data.truthy = false ∨
      ∃ fields, data = Json.obj fields ∧
        (dictGet fields "query" = Json.null ∨
         ∃ s, dictGet fields "query" = Json.str s ∧ pyStrip s = "")) :
    (execute (some gen) (some data)).http.statusOf = some 400 ∧
    (execute (some gen) (some data)).calls = [] := by
  rcases h with h | ⟨fields, rfl, hq⟩
  · simp [execute, h, HttpResult.statusOf]
  · cases hne : fields.isEmpty with
    | true =>
      have hobj : Json.truthy (Json.obj fields) = false := by simp [Json.truthy, hne]
      simp [execute, hobj, HttpResult.statusOf]
    | false =>
      have hobj : Json.truthy (Json.obj fields) = true := by simp [Json.truthy, hne]
      rcases hq with hq | ⟨s, hq, hs⟩
      · simp [execute, hobj, hq, hne, Json.truthy, Json.isStr, HttpResult.statusOf]
      · simp [execute, hobj, hq, hs, hne, Json.truthy, Json.isStr, Json.asStr,
          HttpResult.statusOf]

/-- C2 witness: a body lacking the query key and a body with a blank
query both get 400 without a generate_content call. -/
theorem execute_invalid_query_400_no_call_witness :
    ((execute (some (fun _ => GenOutcome.text "ok"))
        (some (Json.obj [("other", Json.num 1)]))).http.statusOf = some 400 ∧
     (execute (some (fun _ => GenOutcome.text "ok"))
        (some (Json.obj [("other", Json.num 1)]))).calls = []) ∧
    ((execute (some (fun _ => GenOutcome.text "ok"))
        (some (Json.obj [("query", Json.str "   ")]))).http.statusOf = some 400 ∧
     (execute (some (fun _ => GenOutcome.text "ok"))
        (some (Json.obj [("query", Json.str "   ")]))).calls = []) :=
  ⟨execute_invalid_query_400_no_call _ _ (Or.inr ⟨_, rfl, Or.inl rfl⟩),
   execute_invalid_query_400_no_call _ _ (Or.inr ⟨_, rfl, Or.inr ⟨"   ", rfl, by decide⟩⟩)⟩

/-- C3: when the handle is absent, execute answers 503 with the
initialization error body regardless of the request body, and check
answers 503 with status error and the degraded message. -/
theorem handle_absent_503 (body : Option Json) :
    execute none body =
      ⟨.resp ⟨503, errBody "AI service not initialized. Check API key configuration."⟩, []⟩ ∧
    check none =
      ⟨503, Json.obj [("status", Json.str "error"),
        ("message", Json.str "backend is running, but AI model failed to initialize."),
        ("model", Json.str MODEL_TO_USE)]⟩ :=
  ⟨rfl, rfl⟩

/-- C4: with the handle present and a valid query string q, when
generate_content returns text t the handler answers 200 with success true
and the result field holding t verbatim. -/
theorem execute_success_verbatim (gen : String → GenOutcome) (t : String)
    (fields : List (String × Json)) (q : String)
    (hq : dictGet fields "query" = Json.str q) (ht : pyStrip q ≠ "")
    (hg : gen q = GenOutcome.text t) :
    execute (some gen) (some (Json.obj fields)) =
      ⟨.resp ⟨200, Json.obj [("success", Json.bool true), ("result", Json.str t)]⟩, [q]⟩ := by
  rw [execute_valid gen fields q hq ht, hg]

/-- C4 witness: the scenario from the spec, evaluated concretely. -/
theorem execute_success_verbatim_witness :
    execute (some (fun _ => GenOutcome.text "Try deep breathing..."))
      (some (Json.obj [("query", Json.str "I feel anxious about work")])) =
      ⟨.resp ⟨200, Json.obj [("success", Json.bool true),
        ("result", Json.str "Try deep breathing...")]⟩, ["I feel anxious about work"]⟩ :=
  execute_success_verbatim _ _ _ _ rfl (by decide) rfl

/-- C5: with the handle present and a valid query, when generate_content
raises an APIError with description m the handler answers 503, never 500,
and the error message is the fixed prefix followed by m, so it contains
the description of the error. -/
theorem execute_api_error_503 (gen : String → GenOutcome) (m : String)
    (fields : List (String × Json)) (q : String)
    (hq : dictGet fields "query" = Json.str q) (ht : pyStrip q ≠ "")
    (hg : gen q = GenOutcome.raiseApi m) :
    execute (some gen) (some (Json.obj fields)) =
      ⟨.resp ⟨503, errBody ("AI Service Unavailable or request error: " ++ m)⟩, [q]⟩ := by
  rw [execute_valid gen fields q hq ht, hg]

/-- C5 witness: a concrete APIError description appears in the 503 body. -/
theorem execute_api_error_503_witness :
    execute (some (fun _ => GenOutcome.raiseApi "quota exceeded"))
      (some (Json.obj [("query", Json.str "hello")])) =
      ⟨.resp ⟨503, errBody "AI Service Unavailable or request error: quota exceeded"⟩,
        ["hello"]⟩ :=
  execute_api_error_503 _ _ _ _ rfl (by decide) rfl

/-- C6: with the handle present and a valid query, when generate_content
raises a non-APIError exception the handler answers 500 with the fixed
generic body, and the full response is independent of the exception text:
two runs differing only in that text produce identical results. -/
theorem execute_other_error_generic_500 (gen₁ gen₂ : String → GenOutcome) (m₁ m₂ : String)
    (fields : List (String × Json)) (q : String)
    (hq : dictGet fields "query" = Json.str q) (ht : pyStrip q ≠ "")
    (hg₁ : gen₁ q = GenOutcome.raiseOther m₁) (hg₂ : gen₂ q = GenOutcome.raiseOther m₂) :
    execute (some gen₁) (some (Json.obj fields)) =
      ⟨.resp ⟨500, errBody "An unexpected internal server error occurred."⟩, [q]⟩ ∧
    execute (some gen₁) (some (Json.obj fields)) =
      execute (some gen₂) (some (Json.obj fields)) := by
  rw [execute_valid gen₁ fields q hq ht, execute_valid gen₂ fields q hq ht, hg₁, hg₂]
  exact ⟨rfl, rfl⟩

/-- C6 witness: two distinct exception texts give identical generic 500
responses. -/
theorem execute_other_error_generic_500_witness :
    execute (some (fun _ => GenOutcome.raiseOther "secret detail A"))
      (some (Json.obj [("query", Json.str "hello")])) =
      ⟨.resp ⟨500, errBody "An unexpected internal server error occurred."⟩, ["hello"]⟩ ∧
    execute (some (fun _ => GenOutcome.raiseOther "secret detail A"))
      (some (Json.obj [("query", Json.str "hello")])) =
      execute (some (fun _ => GenOutcome.raiseOther "secret detail B"))
        (some (Json.obj [("query", Json.str "hello")])) :=
  execute_other_error_generic_500 _ _ "secret detail A" "secret detail B" _ _
    rfl (by decide) rfl rfl

/-- C7: the checks of execute run in a fixed order: an absent handle gives
503 whatever the body, even an unparseable one; with the handle present an
unparseable or falsy body gives 400 with the payload message; with the
handle present and a truthy object body, a falsy, non-string or blank
query value gives 400 with the query-field message. -/
theorem execute_check_order :
    (∀ body, execute none body =
      ⟨.resp ⟨503, errBody "AI service not initialized. Check API key configuration."⟩, []⟩) ∧
    (∀ gen : String → GenOutcome, execute (some gen) none =
      ⟨.resp ⟨400, errBody "Invalid or missing JSON payload."⟩, []⟩) ∧
    (∀ (gen : String → GenOutcome) (data : Json), data.truthy = false →
      execute (some gen) (some data) =
        ⟨.resp ⟨400, errBody "Invalid or missing JSON payload."⟩, []⟩) ∧
    (∀ (gen : String → GenOutcome) (fields : List (String × Json)),
      fields.isEmpty = false →
      ((dictGet fields "query").truthy = false ∨ (dictGet fields "query").isStr = false ∨
        pyStrip (dictGet fields "query").asStr = "") →
      execute (some gen) (some (Json.obj fields)) =
        ⟨.resp ⟨400, errBody "Missing or empty \"query\" field in the request."⟩, []⟩) := by
  refine ⟨fun _ => rfl, fun _ => rfl, fun gen data h => by simp [execute, h], ?_⟩
  intro gen fields hne hbad
  have hobj : Json.truthy (Json.obj fields) = true := by simp [Json.truthy, hne]
  rcases hbad with h | h | h
  · simp [execute, hobj, h]
  · simp [execute, hobj, h]
  · simp [execute, hobj, h]

/-- C7 witness: the order evaluated concretely; in particular an absent
handle with an unparseable body gives 503, not 400. -/
theorem execute_check_order_witness :
    execute none none =
      ⟨.resp ⟨503, errBody "AI service not initialized. Check API key configuration."⟩, []⟩ ∧
    execute (some (fun _ => GenOutcome.text "ok")) none =
      ⟨.resp ⟨400, errBody "Invalid or missing JSON payload."⟩, []⟩ ∧
    execute (some (fun _ => GenOutcome.text "ok")) (some (Json.bool false)) =
      ⟨.resp ⟨400, errBody "Invalid or missing JSON payload."⟩, []⟩ ∧
    execute (some (fun _ => GenOutcome.text "ok")) (some (Json.obj [("query", Json.str " ")])) =
      ⟨.resp ⟨400, errBody "Missing or empty \"query\" field in the request."⟩, []⟩ :=
  ⟨execute_check_order.1 none,
   execute_check_order.2.1 _,
   execute_check_order.2.2.1 _ _ rfl,
   execute_check_order.2.2.2 _ _ rfl (Or.inr (Or.inr (by decide)))⟩

/-- C8: check answers 200 with status ok when the handle is present and
503 with status error and the degraded message when it is absent, and in
both cases the body carries the configured model identifier under the
model key. -/
theorem check_reports_state :
    (∀ gen : String → GenOutcome, check (some gen) =
      ⟨200, Json.obj [("status", Json.str "ok"),
        ("message", Json.str "backend is running"),
        ("model", Json.str MODEL_TO_USE)]⟩) ∧
    check none =
      ⟨503, Json.obj [("status", Json.str "error"),
        ("message", Json.str "backend is running, but AI model failed to initialize."),
        ("model", Json.str MODEL_TO_USE)]⟩ ∧
    (∀ model : ModelHandle, ∃ fields, (check model).body = Json.obj fields ∧
      dictGet fields "model" = Json.str MODEL_TO_USE) := by
  refine ⟨fun _ => rfl, rfl, fun model => ?_⟩
  cases model with
  | none => exact ⟨_, rfl, rfl⟩
  | some gen => exact ⟨_, rfl, rfl⟩

/-- C9: with the handle present, a body that parses to any falsy value
gets status 400 with the payload message Invalid or missing JSON payload,
the very response given to a body that did not parse at all. -/
theorem execute_falsy_body_payload_message (gen : String → GenOutcome) (data : Json)
    (h : data.truthy = false) :
    execute (some gen) (some data) =
      ⟨.resp ⟨400, errBody "Invalid or missing JSON payload."⟩, []⟩ ∧
    execute (some gen) (some data) = execute (some gen) none := by
  constructor <;> simp [execute, h]

/-- C9 witness: the empty array is falsy and gets the payload message. -/
theorem execute_falsy_body_payload_message_witness :
    execute (some (fun _ => GenOutcome.text "ok")) (some (Json.arr [])) =
      ⟨.resp ⟨400, errBody "Invalid or missing JSON payload."⟩, []⟩ ∧
    execute (some (fun _ => GenOutcome.text "ok")) (some (Json.arr [])) =
      execute (some (fun _ => GenOutcome.text "ok")) none :=
  execute_falsy_body_payload_message _ _ rfl

/-- C10: the raise at lines 47-48 of app.py is unreachable from the
execute endpoint: when the handle is absent execute never calls
generate_content, any run of execute that performed a generate_content
call had the handle present, and with the handle present
execute_mental_health never produces the initialization raise. -/
theorem init_raise_unreachable :
    (∀ body, (execute none body).calls = []) ∧
    (∀ (model : ModelHandle) (body : Option Json),
      (execute model body).calls.isEmpty = false → model.isSome = true) ∧
    (∀ (gen : String → GenOutcome) (q : String),
      (execute_mental_health (some gen) q).isInitRaise = false) := by
  refine ⟨fun _ => rfl, ?_, ?_⟩
  · intro model body h
    cases model with
    | none => simp [execute] at h
    | some gen => rfl
  · intro gen q
    cases hg : gen q <;> simp [execute_mental_health, hg, MHOutcome.isInitRaise]

/-- C10 witness: a run with a call recorded indeed had the handle
present. -/
theorem init_raise_unreachable_witness :
    (some (fun _ : String => GenOutcome.text "ok") : ModelHandle).isSome = true :=
  init_raise_unreachable.2.1 (some (fun _ => GenOutcome.text "ok"))
    (some (Json.obj [("query", Json.str "hi")])) (by decide)

end MentalHealth
